import Mathlib

/-!
Verification of the request-building layer of the couchbase client
(libcouchbase vendored in couchbase-rs): the `lcb_remove`, `lcb_touch`,
`lcb_getcid` and `lcb_getmanifest` entry points of
`src/operations/remove.cc`, `src/operations/touch.cc` and
`src/collections.cc`, together with the response error-info accessors.

The C code is embedded shallowly: machine integers become `Nat` with
explicit `% 2 ^ w` where the C code truncates (`htons`, `htonl`), byte
buffers become `List Nat` (each element a byte value), pointers that may
be NULL become `Option`, and the mutable instance/pipeline state is
passed explicitly.  `htons`/`htonl` store a value big-endian in the
header struct; the embedding keeps the numeric value in the header
record and serialises big-endian in `hdrBytes`, which reproduces the
bytes the C code memcpy-s onto the wire on any platform.  The `opaque`
field is copied into the header verbatim (no byte swap in the C code),
so `hdrBytes` serialises it in host order, parameterised by endianness.

Functions of mcreq.c (packet allocation, key reservation, routing) are
not among the inspected source files; they are modelled from the spec,
each in a definition whose doc comment says so.
-/

/-- Status codes (the subset of `lcb_STATUS` values the embedded operations
produce or test). -/
inductive lcb_STATUS where
  | LCB_SUCCESS
  | LCB_EMPTY_KEY
  | LCB_NOT_SUPPORTED
  | LCB_CLIENT_ETMPFAIL
  | LCB_EINVAL
  | LCB_NO_MATCHING_SERVER
  | LCB_CLIENT_ENOMEM
  | LCB_KEY_ENOENT
  deriving DecidableEq, Repr

/-- Request magic byte for a plain binary-protocol request. -/
def PROTOCOL_BINARY_REQ : Nat := 0x80

/-- Request magic byte for an alternate request (one that carries an
extended-frame section before extras/key/body). -/
def PROTOCOL_BINARY_AREQ : Nat := 0x08

/-- Datatype byte for raw bytes. -/
def PROTOCOL_BINARY_RAW_BYTES : Nat := 0x00

/-- Opcode of the delete (remove) command. -/
def PROTOCOL_BINARY_CMD_DELETE : Nat := 0x04

/-- Opcode of the touch command. -/
def PROTOCOL_BINARY_CMD_TOUCH : Nat := 0x1c

/-- Opcode of the collections get-manifest command. -/
def PROTOCOL_BINARY_CMD_COLLECTIONS_GET_MANIFEST : Nat := 0xba

/-- Opcode of the collections get-collection-id command. -/
def PROTOCOL_BINARY_CMD_COLLECTIONS_GET_CID : Nat := 0xbb

/-- Big-endian bytes of a 16-bit value (what `htons` stores). -/
def be16 (n : Nat) : List Nat := [n / 2 ^ 8 % 256, n % 256]

/-- Big-endian bytes of a 32-bit value (what `htonl` stores). -/
def be32 (n : Nat) : List Nat :=
  [n / 2 ^ 24 % 256, n / 2 ^ 16 % 256, n / 2 ^ 8 % 256, n % 256]

/-- Big-endian bytes of a 64-bit value (what `lcb_htonll` stores). -/
def be64 (n : Nat) : List Nat := be32 (n / 2 ^ 32) ++ be32 n

/-- Little-endian bytes of a 32-bit value. -/
def le32 (n : Nat) : List Nat := (be32 n).reverse

/-- Host-order bytes of a 32-bit value: the bytes a plain (unswapped)
32-bit store produces, on a little- or big-endian machine. -/
def host32 (littleEndian : Bool) (n : Nat) : List Nat :=
  if littleEndian then le32 n else be32 n

/-- The fixed 24-byte `protocol_binary_request_header`, as field values.
`keylen`, `vbucket`, `bodylen` and `cas` are stored big-endian on the
wire (the C code applies `htons`/`htonl`/`lcb_htonll` before the store);
`opaque_` (the C field `opaque`) is stored verbatim in host order. -/
structure RequestHeader where
  magic : Nat := 0
  opcode : Nat := 0
  keylen : Nat := 0
  extlen : Nat := 0
  datatype : Nat := 0
  vbucket : Nat := 0
  bodylen : Nat := 0
  opaque_ : Nat := 0
  cas : Nat := 0
  deriving DecidableEq, Repr

/-- The 24 bytes of the fixed header as laid out on the wire:
magic, opcode, key length (BE16), extras length, datatype,
vbucket/status (BE16), total body length (BE32), opaque (host order),
CAS (BE64). -/
def hdrBytes (littleEndian : Bool) (h : RequestHeader) : List Nat :=
  [h.magic % 256, h.opcode % 256] ++ be16 h.keylen ++
    [h.extlen % 256, h.datatype % 256] ++ be16 h.vbucket ++
    be32 h.bodylen ++ host32 littleEndian h.opaque_ ++ be64 h.cas

/-- An in-flight request packet (`mc_PACKET`): the correlation id
assigned at allocation (`opaque_`, the C field `opaque`), the
no-collection-id flag (`MCREQ_F_NOCID`, modelled as a Bool), the header
written into its key/header span, the bytes that follow the fixed
header inside that span (extended frame and extras), and the key bytes
appended after them. -/
structure mc_PACKET where
  opaque_ : Nat
  nocid : Bool := false
  hdr : RequestHeader := {}
  postHeader : List Nat := []
  key : List Nat := []
  deriving DecidableEq, Repr

/-- The full wire prefix of a packet's key/header span: fixed header,
then extended frame and extras, then the key. -/
def wireBytes (littleEndian : Bool) (p : mc_PACKET) : List Nat :=
  hdrBytes littleEndian p.hdr ++ p.postHeader ++ p.key

/-- A per-server pipeline (`mc_PIPELINE`): the correlation-id counter
from which allocation draws, and the ordered send queue of scheduled
packets. -/
structure mc_PIPELINE where
  ctr : Nat := 0
  sched : List mc_PACKET := []
  deriving DecidableEq, Repr

/-- The state an operation submission reads and updates: whether the
command queue has a configuration (`cq->config != NULL`), the
`use_collections` setting, `LCBT_SUPPORT_SYNCREPLICATION`, whether
packet allocation succeeds (models the out-of-memory failure of the
allocator), the pipeline index routing assigns to the submitted key,
and the command queue's pipelines. -/
structure lcb_INSTANCE where
  cq_config : Bool := true
  use_collections : Bool := true
  syncreplication : Bool := true
  allocOk : Bool := true
  routeIx : Nat := 0
  pipelines : List mc_PIPELINE := []
  deriving DecidableEq, Repr

/-- What a submission returns and effects: the status the C function
returns, the updated instance, and the packet handed to
`LCB_SCHED_ADD` (none when no packet was scheduled). -/
structure SubmitResult where
  rc : lcb_STATUS
  inst : lcb_INSTANCE
  pkt : Option mc_PACKET
  deriving DecidableEq, Repr

/-- Modelled from the spec: scheduling appends the packet to its
pipeline's send queue, and the correlation-id counter the packet's id
was drawn from advances ("a correlation id unique within the pipeline
(monotonically increasing counter ...)", spec 4.2; `LCB_SCHED_ADD`
and the allocator live in mcreq.c, which is not among the inspected
files).  The counter advance is folded into scheduling because on
every path of the embedded operations an allocated packet is
scheduled. -/
def pipelineScheduleFresh (pl : mc_PIPELINE) (p : mc_PACKET) : mc_PIPELINE :=
  { ctr := pl.ctr + 1, sched := pl.sched ++ [p] }

/-- Modelled from the spec: `LCB_SCHED_ADD` places the packet on the
pipeline at index `ix`; all other pipelines and instance fields are
untouched. -/
def schedAdd (inst : lcb_INSTANCE) (ix : Nat) (p : mc_PACKET) : lcb_INSTANCE :=
  { inst with
    pipelines :=
      inst.pipelines.set ix (pipelineScheduleFresh (inst.pipelines.getD ix {}) p) }

/-- Modelled from the spec: `mcreq_basic_packet` (mcreq.c is not among
the inspected files).  Per spec 4.4, submission fails with
NoMatchingServer when the queue has no pipelines or no pipeline exists
for the routed key, and per spec 4.2 allocation fails with OutOfMemory;
on success it allocates a packet (correlation id drawn from the routed
pipeline's counter), appends the key (no collection-id prefix: none is
resolved here), and records the key length and extras length in the
caller's header.  On failure nothing is allocated or queued. -/
def mcreq_basic_packet (inst : lcb_INSTANCE) (key : List Nat)
    (hdr : RequestHeader) (extlen ffextlen : Nat) :
    Except lcb_STATUS (mc_PACKET × Nat × RequestHeader) :=
  if inst.pipelines.length = 0 ∨ inst.pipelines.length ≤ inst.routeIx then
    .error .LCB_NO_MATCHING_SERVER
  else if inst.allocOk = false then .error .LCB_CLIENT_ENOMEM
  else
    let pl := inst.pipelines.getD inst.routeIx {}
    .ok ({ opaque_ := pl.ctr, key := key },
         inst.routeIx,
         { hdr with keylen := key.length % 2 ^ 16, extlen := extlen % 256 })

/-- The command structure for remove: key bytes, CAS, durability level
and durability timeout (`lcb_CMDREMOVE`). -/
structure lcb_CMDREMOVE where
  key : List Nat := []
  cas : Nat := 0
  dur_level : Nat := 0
  dur_timeout : Nat := 0
  deriving DecidableEq, Repr

/-- The command structure for touch: key bytes, expiry, durability
level and durability timeout (`lcb_CMDTOUCH`). -/
structure lcb_CMDTOUCH where
  key : List Nat := []
  exptime : Nat := 0
  dur_level : Nat := 0
  dur_timeout : Nat := 0
  deriving DecidableEq, Repr

/-- Embedding of `lcb_remove` (remove.cc lines 134-185).  Empty key is
rejected first; a nonzero durability level on an instance without
synchronous replication is rejected with NotSupported; otherwise an
AREQ magic and a 4-byte frame length are prepared when durability is
requested (lines 151-158), `mcreq_basic_packet` is called with extras
length 0, the header fields are written exactly as lines 166-176 do
(note line 167 stores `PROTOCOL_BINARY_REQ` into the magic
unconditionally, after line 153 stored `PROTOCOL_BINARY_AREQ`), the
durability frame bytes are the `body.alt` bytes that the memcpy of
`hsize = extlen + 24 + ffextlen` bytes at line 180 places right after
the fixed header, and the packet is scheduled. -/
def lcb_remove (inst : lcb_INSTANCE) (cmd : lcb_CMDREMOVE) : SubmitResult :=
  if cmd.key = [] then ⟨.LCB_EMPTY_KEY, inst, none⟩
  else if cmd.dur_level ≠ 0 ∧ inst.syncreplication = false then
    ⟨.LCB_NOT_SUPPORTED, inst, none⟩
  else
    let hdr0 : RequestHeader :=
      if cmd.dur_level ≠ 0 then { magic := PROTOCOL_BINARY_AREQ } else {}
    let ffextlen : Nat := if cmd.dur_level ≠ 0 then 4 else 0
    match mcreq_basic_packet inst cmd.key hdr0 0 ffextlen with
    | .error e => ⟨e, inst, none⟩
    | .ok (pkt0, ix, hdr1) =>
      let hdr2 : RequestHeader :=
        { hdr1 with
          datatype := PROTOCOL_BINARY_RAW_BYTES
          magic := PROTOCOL_BINARY_REQ
          opcode := PROTOCOL_BINARY_CMD_DELETE
          cas := cmd.cas % 2 ^ 64
          opaque_ := pkt0.opaque_
          bodylen := (ffextlen + hdr1.extlen + hdr1.keylen) % 2 ^ 32 }
      let post : List Nat :=
        if cmd.dur_level ≠ 0 ∧ inst.syncreplication = true then
          [(1 <<< 4) ||| 3, cmd.dur_level % 256] ++ be16 cmd.dur_timeout
        else []
      let pkt1 : mc_PACKET := { pkt0 with hdr := hdr2, postHeader := post }
      ⟨.LCB_SUCCESS, schedAdd inst ix pkt1, some pkt1⟩

/-- Embedding of `lcb_touch` (touch.cc lines 135-189).  Same guard
structure as remove; `mcreq_basic_packet` is called with extras length
4 (the expiry), lines 167-172 write the header (line 167 again stores
`PROTOCOL_BINARY_REQ` unconditionally), and the bytes after the fixed
header are `body.alt` (durability frame then BE32 expiry) when
durability is requested, else `body.norm` (BE32 expiry alone), per
lines 173-180 and the memcpy of `hsize = 4 + 24 + ffextlen` bytes at
line 182. -/
def lcb_touch (inst : lcb_INSTANCE) (cmd : lcb_CMDTOUCH) : SubmitResult :=
  if cmd.key = [] then ⟨.LCB_EMPTY_KEY, inst, none⟩
  else if cmd.dur_level ≠ 0 ∧ inst.syncreplication = false then
    ⟨.LCB_NOT_SUPPORTED, inst, none⟩
  else
    let hdr0 : RequestHeader :=
      if cmd.dur_level ≠ 0 then { magic := PROTOCOL_BINARY_AREQ } else {}
    let ffextlen : Nat := if cmd.dur_level ≠ 0 then 4 else 0
    match mcreq_basic_packet inst cmd.key hdr0 4 ffextlen with
    | .error e => ⟨e, inst, none⟩
    | .ok (pkt0, ix, hdr1) =>
      let hdr2 : RequestHeader :=
        { hdr1 with
          magic := PROTOCOL_BINARY_REQ
          opcode := PROTOCOL_BINARY_CMD_TOUCH
          cas := 0
          datatype := PROTOCOL_BINARY_RAW_BYTES
          opaque_ := pkt0.opaque_
          bodylen := (4 + ffextlen + hdr1.keylen) % 2 ^ 32 }
      let post : List Nat :=
        if cmd.dur_level ≠ 0 ∧ inst.syncreplication = true then
          [(1 <<< 4) ||| 3, cmd.dur_level % 256] ++ be16 cmd.dur_timeout ++
            be32 cmd.exptime
        else be32 cmd.exptime
      let pkt1 : mc_PACKET := { pkt0 with hdr := hdr2, postHeader := post }
      ⟨.LCB_SUCCESS, schedAdd inst ix pkt1, some pkt1⟩

/-- The command structure for a collection-id lookup
(`lcb_CMDGETCID`): scope and collection names, each a possibly-NULL
pointer to bytes, modelled as `Option`. -/
structure lcb_CMDGETCID where
  scope : Option (List Nat) := none
  collection : Option (List Nat) := none
  deriving DecidableEq, Repr

/-- A NULL pointer or zero length name: the test
`cmd->nscope == 0 || cmd->scope == NULL` (and likewise for the
collection) of collections.cc line 171. -/
def nullOrEmpty : Option (List Nat) → Bool
  | none => true
  | some s => s.isEmpty

/-- The bytes a possibly-NULL name points at (only read on paths where
the pointer is non-NULL). -/
def nameBytes : Option (List Nat) → List Nat
  | none => []
  | some s => s

/-- Embedding of `lcb_getcid` (collections.cc lines 161-210).  Guards
in source order: no config (ETMPFAIL), collections disabled
(NOT_SUPPORTED), empty-or-NULL scope or collection (EINVAL), no
pipelines (NO_MATCHING_SERVER); then a packet is allocated on
pipeline 0 (ENOMEM on allocator failure), the key is the literal
"scope.collection" path (0x2e is the dot), the `MCREQ_F_NOCID` flag is
set, and the header holds REQ magic, the get-cid opcode, the packet's
correlation id, `ntohs(path.size())` as key length and
`htonl(path.size())` as body length (`ntohs` and `htons` perform the
same transformation, so both fields are stored big-endian). -/
def lcb_getcid (inst : lcb_INSTANCE) (cmd : lcb_CMDGETCID) : SubmitResult :=
  if inst.cq_config = false then ⟨.LCB_CLIENT_ETMPFAIL, inst, none⟩
  else if inst.use_collections = false then ⟨.LCB_NOT_SUPPORTED, inst, none⟩
  else if nullOrEmpty cmd.scope || nullOrEmpty cmd.collection then
    ⟨.LCB_EINVAL, inst, none⟩
  else if inst.pipelines.length < 1 then ⟨.LCB_NO_MATCHING_SERVER, inst, none⟩
  else if inst.allocOk = false then ⟨.LCB_CLIENT_ENOMEM, inst, none⟩
  else
    let pl := inst.pipelines.getD 0 {}
    let path := nameBytes cmd.scope ++ [0x2e] ++ nameBytes cmd.collection
    let hdr : RequestHeader :=
      { magic := PROTOCOL_BINARY_REQ
        opcode := PROTOCOL_BINARY_CMD_COLLECTIONS_GET_CID
        datatype := PROTOCOL_BINARY_RAW_BYTES
        opaque_ := pl.ctr
        keylen := path.length % 2 ^ 16
        bodylen := path.length % 2 ^ 32 }
    let pkt : mc_PACKET := { opaque_ := pl.ctr, nocid := true, hdr := hdr, key := path }
    ⟨.LCB_SUCCESS, schedAdd inst 0 pkt, some pkt⟩

/-- Embedding of `lcb_getmanifest` (collections.cc lines 62-96).
Guards in source order: no config (ETMPFAIL), collections disabled
(NOT_SUPPORTED), no pipelines (NO_MATCHING_SERVER); then a packet is
allocated on pipeline 0 (ENOMEM on allocator failure) and a bare
header with REQ magic, the get-manifest opcode and the packet's
correlation id is written and scheduled. -/
def lcb_getmanifest (inst : lcb_INSTANCE) : SubmitResult :=
  if inst.cq_config = false then ⟨.LCB_CLIENT_ETMPFAIL, inst, none⟩
  else if inst.use_collections = false then ⟨.LCB_NOT_SUPPORTED, inst, none⟩
  else if inst.pipelines.length < 1 then ⟨.LCB_NO_MATCHING_SERVER, inst, none⟩
  else if inst.allocOk = false then ⟨.LCB_CLIENT_ENOMEM, inst, none⟩
  else
    let pl := inst.pipelines.getD 0 {}
    let hdr : RequestHeader :=
      { magic := PROTOCOL_BINARY_REQ
        opcode := PROTOCOL_BINARY_CMD_COLLECTIONS_GET_MANIFEST
        datatype := PROTOCOL_BINARY_RAW_BYTES
        opaque_ := pl.ctr }
    let pkt : mc_PACKET := { opaque_ := pl.ctr, hdr := hdr }
    ⟨.LCB_SUCCESS, schedAdd inst 0 pkt, some pkt⟩

/-- Modelled from the spec: the `LCB_RESP_F_ERRINFO` response-flag bit
(its numeric value lives in a header not among the inspected files;
only "the flags include the error-info bit" matters to the claims, so
any fixed single bit is faithful). -/
def LCB_RESP_F_ERRINFO : Nat := 0x20

/-- The fields of `lcb_RESPREMOVE` / `lcb_RESPTOUCH` the error-info
accessors read: the response flags, and the error-context and
error-reference strings `lcb_resp_get_error_context` /
`lcb_resp_get_error_ref` would return (NULL modelled as `none`). -/
structure lcb_RESPBASE where
  rflags : Nat := 0
  err_context : Option (List Nat) := none
  err_ref : Option (List Nat) := none
  deriving DecidableEq, Repr

/-- Embedding of `lcb_respremove_error_context` (remove.cc lines
26-37): without the error-info flag it returns LCB_KEY_ENOENT and
leaves the caller's output pointer and length untouched; with the flag
it overwrites them when the context string is non-NULL and returns
LCB_SUCCESS either way.  The caller's two output arguments are passed
and returned explicitly. -/
def lcb_respremove_error_context (resp : lcb_RESPBASE)
    (ctx : Option (List Nat)) (ctx_len : Nat) :
    lcb_STATUS × Option (List Nat) × Nat :=
  if resp.rflags &&& LCB_RESP_F_ERRINFO = 0 then (.LCB_KEY_ENOENT, ctx, ctx_len)
  else
    match resp.err_context with
    | some val => (.LCB_SUCCESS, some val, val.length)
    | none => (.LCB_SUCCESS, ctx, ctx_len)

/-- Embedding of `lcb_respremove_error_ref` (remove.cc lines 39-50). -/
def lcb_respremove_error_ref (resp : lcb_RESPBASE)
    (ref : Option (List Nat)) (ref_len : Nat) :
    lcb_STATUS × Option (List Nat) × Nat :=
  if resp.rflags &&& LCB_RESP_F_ERRINFO = 0 then (.LCB_KEY_ENOENT, ref, ref_len)
  else
    match resp.err_ref with
    | some val => (.LCB_SUCCESS, some val, val.length)
    | none => (.LCB_SUCCESS, ref, ref_len)

/-- Embedding of `lcb_resptouch_error_context` (touch.cc lines 26-37;
line 34 writes `strlen(*ctx)` where remove writes `strlen(val)`, the
same value since `*ctx = val` was just assigned). -/
def lcb_resptouch_error_context (resp : lcb_RESPBASE)
    (ctx : Option (List Nat)) (ctx_len : Nat) :
    lcb_STATUS × Option (List Nat) × Nat :=
  if resp.rflags &&& LCB_RESP_F_ERRINFO = 0 then (.LCB_KEY_ENOENT, ctx, ctx_len)
  else
    match resp.err_context with
    | some val => (.LCB_SUCCESS, some val, val.length)
    | none => (.LCB_SUCCESS, ctx, ctx_len)

/-- Embedding of `lcb_resptouch_error_ref` (touch.cc lines 39-50). -/
def lcb_resptouch_error_ref (resp : lcb_RESPBASE)
    (ref : Option (List Nat)) (ref_len : Nat) :
    lcb_STATUS × Option (List Nat) × Nat :=
  if resp.rflags &&& LCB_RESP_F_ERRINFO = 0 then (.LCB_KEY_ENOENT, ref, ref_len)
  else
    match resp.err_ref with
    | some val => (.LCB_SUCCESS, some val, val.length)
    | none => (.LCB_SUCCESS, ref, ref_len)

/-- A connected, collections- and syncreplication-capable instance with
one fresh pipeline, used to instantiate the theorems below. -/
def instW : lcb_INSTANCE := { pipelines := [{}] }

theorem be16_mod (n : Nat) : be16 (n % 2 ^ 16) = be16 n := by
  simp only [be16, List.cons.injEq, and_true]
  norm_num
  omega

theorem be32_mod (n : Nat) : be32 (n % 2 ^ 32) = be32 n := by
  simp only [be32, List.cons.injEq, and_true]
  norm_num
  omega

theorem hdrBytes_keylen (lEnd : Bool) (h : RequestHeader) :
    ((hdrBytes lEnd h).drop 2).take 2 = be16 h.keylen := by
  simp [hdrBytes, be16]

theorem hdrBytes_bodylen (lEnd : Bool) (h : RequestHeader) :
    ((hdrBytes lEnd h).drop 8).take 4 = be32 h.bodylen := by
  simp [hdrBytes, be16, be32]

/-- Inversion of `lcb_remove`: whenever a packet was built and
scheduled, the guards passed and the packet's fields are determined. -/
theorem lcb_remove_pkt_inv (inst : lcb_INSTANCE) (cmd : lcb_CMDREMOVE) (p : mc_PACKET)
    (hp : (lcb_remove inst cmd).pkt = some p) :
    cmd.key ≠ [] ∧ (cmd.dur_level ≠ 0 → inst.syncreplication = true) ∧
    p.opaque_ = (inst.pipelines.getD inst.routeIx {}).ctr ∧
    p.hdr.opaque_ = p.opaque_ ∧
    p.key = cmd.key ∧
    p.postHeader = (if cmd.dur_level ≠ 0 then
        [(1 <<< 4) ||| 3, cmd.dur_level % 256] ++ be16 cmd.dur_timeout
      else []) ∧
    p.hdr.magic = PROTOCOL_BINARY_REQ := by
  simp only [lcb_remove] at hp
  split at hp
  · simp at hp
  next hd =>
    split at hp
    · simp at hp
    next hds =>
      split at hp
      · simp at hp
      next pkt0 ix hdr1 heq =>
        simp only [mcreq_basic_packet] at heq
        split at heq
        · simp at heq
        · split at heq
          · simp at heq
          · simp only [Except.ok.injEq, Prod.mk.injEq] at heq
            obtain ⟨hpkt0, hix, hhdr1⟩ := heq
            rw [Option.some_inj] at hp
            have hsync : cmd.dur_level ≠ 0 → inst.syncreplication = true := by
              intro hdl
              rcases Bool.eq_false_or_eq_true inst.syncreplication with ht | hf
              · exact ht
              · exact absurd ⟨hdl, hf⟩ hds
            subst hp
            refine ⟨hd, hsync, ?_, rfl, ?_, ?_, rfl⟩
            · simp [← hpkt0, hix]
            · simp [← hpkt0]
            · by_cases hdl : cmd.dur_level = 0
              · simp [hdl]
              · simp [hdl, hsync hdl]

/-- Inversion of `lcb_touch`: whenever a packet was built and
scheduled, the guards passed and the packet's fields are determined. -/
theorem lcb_touch_pkt_inv (inst : lcb_INSTANCE) (cmd : lcb_CMDTOUCH) (p : mc_PACKET)
    (hp : (lcb_touch inst cmd).pkt = some p) :
    cmd.key ≠ [] ∧ (cmd.dur_level ≠ 0 → inst.syncreplication = true) ∧
    p.opaque_ = (inst.pipelines.getD inst.routeIx {}).ctr ∧
    p.hdr.opaque_ = p.opaque_ ∧
    p.key = cmd.key ∧
    p.postHeader = (if cmd.dur_level ≠ 0 then
        [(1 <<< 4) ||| 3, cmd.dur_level % 256] ++ be16 cmd.dur_timeout ++ be32 cmd.exptime
      else be32 cmd.exptime) ∧
    p.hdr.magic = PROTOCOL_BINARY_REQ := by
  simp only [lcb_touch] at hp
  split at hp
  · simp at hp
  next hd =>
    split at hp
    · simp at hp
    next hds =>
      split at hp
      · simp at hp
      next pkt0 ix hdr1 heq =>
        simp only [mcreq_basic_packet] at heq
        split at heq
        · simp at heq
        · split at heq
          · simp at heq
          · simp only [Except.ok.injEq, Prod.mk.injEq] at heq
            obtain ⟨hpkt0, hix, hhdr1⟩ := heq
            rw [Option.some_inj] at hp
            have hsync : cmd.dur_level ≠ 0 → inst.syncreplication = true := by
              intro hdl
              rcases Bool.eq_false_or_eq_true inst.syncreplication with ht | hf
              · exact ht
              · exact absurd ⟨hdl, hf⟩ hds
            subst hp
            refine ⟨hd, hsync, ?_, rfl, ?_, ?_, rfl⟩
            · simp [← hpkt0, hix]
            · simp [← hpkt0]
            · by_cases hdl : cmd.dur_level = 0
              · simp [hdl]
              · simp [hdl, hsync hdl]

/-- Inversion of `lcb_getcid`: whenever a lookup packet was built and
scheduled, the guards passed and the packet's fields are determined. -/
theorem lcb_getcid_pkt_inv (inst : lcb_INSTANCE) (cmd : lcb_CMDGETCID) (p : mc_PACKET)
    (hp : (lcb_getcid inst cmd).pkt = some p) :
    nullOrEmpty cmd.scope = false ∧ nullOrEmpty cmd.collection = false ∧
    p.key = nameBytes cmd.scope ++ [0x2e] ++ nameBytes cmd.collection ∧
    p.nocid = true ∧
    p.opaque_ = (inst.pipelines.getD 0 {}).ctr ∧
    p.hdr.opaque_ = p.opaque_ ∧
    p.hdr.keylen = p.key.length % 2 ^ 16 ∧
    p.hdr.bodylen = p.key.length % 2 ^ 32 := by
  simp only [lcb_getcid] at hp
  split at hp
  · simp at hp
  · split at hp
    · simp at hp
    next hnames =>
      split at hp
      · simp at hp
      · split at hp
        · simp at hp
        · split at hp
          · simp at hp
          · rw [Option.some_inj] at hp
            subst hp
            have hn : nullOrEmpty cmd.scope = false ∧ nullOrEmpty cmd.collection = false := by
              constructor <;> simp_all
            exact ⟨hn.1, hn.2, rfl, rfl, rfl, rfl, rfl, rfl⟩

/-- C1: the spec and the claim say a remove or touch carrying a nonzero
durability level (with synchronous replication supported) is encoded
with the alternate-request magic `PROTOCOL_BINARY_AREQ`.  The code sets
that magic at remove.cc:153 / touch.cc:153, but line 167 of both files
stores `PROTOCOL_BINARY_REQ` into the magic unconditionally after
`mcreq_basic_packet` returns, so the header handed to the pipeline
carries the plain-request magic while the 4-byte durability frame is
still written after the header and counted in the body length: the
packet contradicts the code's own line 153 and is malformed under REQ
magic.  Evaluation at the failing input (key "k", durability level 1,
syncreplication supported). -/
theorem durable_packet_magic_is_req_not_areq :
    (((lcb_remove instW { key := [107], dur_level := 1 }).pkt.map
        fun p => (p.hdr.magic, p.postHeader.length)) = some (PROTOCOL_BINARY_REQ, 4)) ∧
    (((lcb_touch instW { key := [107], dur_level := 1 }).pkt.map
        fun p => (p.hdr.magic, p.postHeader.length)) = some (PROTOCOL_BINARY_REQ, 8)) ∧
    PROTOCOL_BINARY_REQ ≠ PROTOCOL_BINARY_AREQ := by decide

/-- C9: an empty key is rejected with LCB_EMPTY_KEY before anything
else: the instance is returned unchanged and no packet is built, no
matter the durability level or syncreplication support (remove.cc and
touch.cc lines 147-149, which precede the durability check of lines
151-158). -/
theorem empty_key_rejected_first (inst : lcb_INSTANCE)
    (rcmd : lcb_CMDREMOVE) (tcmd : lcb_CMDTOUCH)
    (hr : rcmd.key = []) (ht : tcmd.key = []) :
    lcb_remove inst rcmd = ⟨.LCB_EMPTY_KEY, inst, none⟩ ∧
    lcb_touch inst tcmd = ⟨.LCB_EMPTY_KEY, inst, none⟩ := by
  constructor <;> simp [lcb_remove, lcb_touch, hr, ht]

/-- Witness for C9: the empty-key rejection evaluated on a concrete
instance, with a nonzero durability level and no syncreplication
support (so the durability check would have returned NotSupported had
it come first). -/
theorem empty_key_rejected_first_witness :
    lcb_remove { instW with syncreplication := false } { dur_level := 1 } =
      ⟨.LCB_EMPTY_KEY, { instW with syncreplication := false }, none⟩ ∧
    lcb_touch { instW with syncreplication := false } { dur_level := 1 } =
      ⟨.LCB_EMPTY_KEY, { instW with syncreplication := false }, none⟩ :=
  empty_key_rejected_first { instW with syncreplication := false } { dur_level := 1 }
    { dur_level := 1 } rfl rfl

/-- C4: on a configured instance with collections enabled, a
collection-id lookup whose scope and collection are both empty or NULL
returns LCB_EINVAL synchronously, the instance is unchanged and no
packet is allocated (collections.cc lines 171-173; the code in fact
rejects the lookup when either name is empty or NULL, which covers the
claimed both-empty case). -/
theorem getcid_both_empty_einval (inst : lcb_INSTANCE) (cmd : lcb_CMDGETCID)
    (hc : inst.cq_config = true) (hu : inst.use_collections = true)
    (hs : nullOrEmpty cmd.scope = true) (hcol : nullOrEmpty cmd.collection = true) :
    lcb_getcid inst cmd = ⟨.LCB_EINVAL, inst, none⟩ := by
  simp [lcb_getcid, hc, hu, hs, hcol]

/-- Witness for C4: both names NULL on a concrete one-pipeline
instance. -/
theorem getcid_both_empty_einval_witness :
    lcb_getcid instW {} = ⟨.LCB_EINVAL, instW, none⟩ :=
  getcid_both_empty_einval instW {} rfl rfl rfl rfl

/-- C5: on a configured instance with collections enabled (and, for
the lookup, non-empty names so the earlier guards pass), a submission
while the command queue has zero pipelines returns
LCB_NO_MATCHING_SERVER synchronously, before any packet is allocated
or queued: the instance is unchanged and no packet exists
(collections.cc lines 174-176 and 72-74, both before
`mcreq_allocate_packet`). -/
theorem zero_pipelines_no_matching_server (inst : lcb_INSTANCE) (s c : List Nat)
    (hc : inst.cq_config = true) (hu : inst.use_collections = true)
    (hp : inst.pipelines = []) (hs : s ≠ []) (hcl : c ≠ []) :
    lcb_getcid inst { scope := some s, collection := some c } =
      ⟨.LCB_NO_MATCHING_SERVER, inst, none⟩ ∧
    lcb_getmanifest inst = ⟨.LCB_NO_MATCHING_SERVER, inst, none⟩ := by
  constructor <;>
    simp [lcb_getcid, lcb_getmanifest, nullOrEmpty, List.isEmpty_iff, hc, hu, hp, hs, hcl]

/-- Witness for C5: a zero-pipeline instance with concrete one-byte
names. -/
theorem zero_pipelines_no_matching_server_witness :
    lcb_getcid { pipelines := [] } { scope := some [115], collection := some [99] } =
      ⟨.LCB_NO_MATCHING_SERVER, { pipelines := [] }, none⟩ ∧
    lcb_getmanifest { pipelines := [] } =
      ⟨.LCB_NO_MATCHING_SERVER, { pipelines := [] }, none⟩ :=
  zero_pipelines_no_matching_server { pipelines := [] } [115] [99] rfl rfl rfl
    (by decide) (by decide)

/-- C6: on a configured instance whose `use_collections` setting is
disabled, both collection-related submissions return LCB_NOT_SUPPORTED
synchronously, the instance is unchanged and no packet is ever built
(collections.cc lines 168-170 and 69-71, before any packet work). -/
theorem collections_disabled_not_supported (inst : lcb_INSTANCE) (cmd : lcb_CMDGETCID)
    (hc : inst.cq_config = true) (hu : inst.use_collections = false) :
    lcb_getcid inst cmd = ⟨.LCB_NOT_SUPPORTED, inst, none⟩ ∧
    lcb_getmanifest inst = ⟨.LCB_NOT_SUPPORTED, inst, none⟩ := by
  constructor <;> simp [lcb_getcid, lcb_getmanifest, hc, hu]

/-- Witness for C6: collections disabled on a concrete one-pipeline
instance with valid names (so only the disabled setting triggers). -/
theorem collections_disabled_not_supported_witness :
    lcb_getcid { instW with use_collections := false }
        { scope := some [115], collection := some [99] } =
      ⟨.LCB_NOT_SUPPORTED, { instW with use_collections := false }, none⟩ ∧
    lcb_getmanifest { instW with use_collections := false } =
      ⟨.LCB_NOT_SUPPORTED, { instW with use_collections := false }, none⟩ :=
  collections_disabled_not_supported { instW with use_collections := false }
    { scope := some [115], collection := some [99] } rfl rfl

/-- C10: when the response flags lack the error-info bit, all four
error-info accessors return LCB_KEY_ENOENT and leave the caller's
output pointer and length exactly as passed in; and each accessor
returns LCB_SUCCESS exactly when the flag is present (remove.cc and
touch.cc lines 26-50). -/
theorem errinfo_accessors_spec (resp : lcb_RESPBASE) (v : Option (List Nat)) (n : Nat)
    (h : resp.rflags &&& LCB_RESP_F_ERRINFO = 0) :
    lcb_respremove_error_context resp v n = (.LCB_KEY_ENOENT, v, n) ∧
    lcb_respremove_error_ref resp v n = (.LCB_KEY_ENOENT, v, n) ∧
    lcb_resptouch_error_context resp v n = (.LCB_KEY_ENOENT, v, n) ∧
    lcb_resptouch_error_ref resp v n = (.LCB_KEY_ENOENT, v, n) ∧
    ∀ r2 : lcb_RESPBASE,
      ((lcb_respremove_error_context r2 v n).1 = .LCB_SUCCESS ↔
        r2.rflags &&& LCB_RESP_F_ERRINFO ≠ 0) ∧
      ((lcb_respremove_error_ref r2 v n).1 = .LCB_SUCCESS ↔
        r2.rflags &&& LCB_RESP_F_ERRINFO ≠ 0) ∧
      ((lcb_resptouch_error_context r2 v n).1 = .LCB_SUCCESS ↔
        r2.rflags &&& LCB_RESP_F_ERRINFO ≠ 0) ∧
      ((lcb_resptouch_error_ref r2 v n).1 = .LCB_SUCCESS ↔
        r2.rflags &&& LCB_RESP_F_ERRINFO ≠ 0) := by
  refine ⟨?_, ?_, ?_, ?_, ?_⟩
  · simp [lcb_respremove_error_context, h]
  · simp [lcb_respremove_error_ref, h]
  · simp [lcb_resptouch_error_context, h]
  · simp [lcb_resptouch_error_ref, h]
  · intro r2
    by_cases hb : r2.rflags &&& LCB_RESP_F_ERRINFO = 0
    · simp [lcb_respremove_error_context, lcb_respremove_error_ref,
        lcb_resptouch_error_context, lcb_resptouch_error_ref, hb]
    · cases hcx : r2.err_context <;> cases hrf : r2.err_ref <;>
        simp [lcb_respremove_error_context, lcb_respremove_error_ref,
          lcb_resptouch_error_context, lcb_resptouch_error_ref, hb, hcx, hrf]

/-- Witness for C10: a response with no flags set and non-NULL stored
error strings still yields LCB_KEY_ENOENT with untouched outputs. -/
theorem errinfo_accessors_spec_witness :
    lcb_respremove_error_context { err_context := some [120] } none 7 =
      (.LCB_KEY_ENOENT, none, 7) ∧
    lcb_resptouch_error_ref { err_ref := some [121] } none 7 =
      (.LCB_KEY_ENOENT, none, 7) := by
  have h1 := errinfo_accessors_spec { err_context := some [120] } none 7 (by decide)
  have h2 := errinfo_accessors_spec { err_ref := some [121] } none 7 (by decide)
  exact ⟨h1.1, h2.2.2.2.1⟩

/-- C2: the bytes a durable remove writes after the fixed header are a
one-byte frame descriptor (frame-type nibble 1 shifted left 4, or-ed
with frame-length nibble 3), one byte holding the durability level and
a 2-byte big-endian timeout; a durable touch appends a 4-byte
big-endian expiry after that frame; and a touch without durability
writes only the 4-byte big-endian expiry as extras (remove.cc lines
172-176, touch.cc lines 173-180). -/
theorem durability_frame_encoding (inst : lcb_INSTANCE)
    (rcmd : lcb_CMDREMOVE) (tcmd : lcb_CMDTOUCH) (p q : mc_PACKET)
    (hrd : rcmd.dur_level ≠ 0) (htd : tcmd.dur_level ≠ 0)
    (hp : (lcb_remove inst rcmd).pkt = some p)
    (hq : (lcb_touch inst tcmd).pkt = some q) :
    inst.syncreplication = true ∧
    p.postHeader = [(1 <<< 4) ||| 3, rcmd.dur_level % 256] ++ be16 rcmd.dur_timeout ∧
    q.postHeader =
      [(1 <<< 4) ||| 3, tcmd.dur_level % 256] ++ be16 tcmd.dur_timeout ++ be32 tcmd.exptime ∧
    ∀ (t0 : lcb_CMDTOUCH) (q0 : mc_PACKET), t0.dur_level = 0 →
      (lcb_touch inst t0).pkt = some q0 → q0.postHeader = be32 t0.exptime := by
  obtain ⟨-, hsync, -, -, -, hpost, -⟩ := lcb_remove_pkt_inv inst rcmd p hp
  obtain ⟨-, -, -, -, -, hqost, -⟩ := lcb_touch_pkt_inv inst tcmd q hq
  refine ⟨hsync hrd, ?_, ?_, ?_⟩
  · rw [hpost, if_pos hrd]
  · rw [hqost, if_pos htd]
  · intro t0 q0 h0 hq0
    obtain ⟨-, -, -, -, -, h0post, -⟩ := lcb_touch_pkt_inv inst t0 q0 hq0
    rw [h0post, if_neg (by simp [h0])]

/-- Witness for C2: concrete durable remove and touch commands on a
fresh one-pipeline instance, plus a non-durable touch. -/
theorem durability_frame_encoding_witness :
    ((lcb_remove instW { key := [107], dur_level := 1, dur_timeout := 5 }).pkt.map
      fun x => x.postHeader) = some [19, 1, 0, 5] ∧
    ((lcb_touch instW { key := [107], exptime := 9, dur_level := 2, dur_timeout := 7 }).pkt.map
      fun x => x.postHeader) = some [19, 2, 0, 7, 0, 0, 0, 9] ∧
    ((lcb_touch instW { key := [107], exptime := 9 }).pkt.map
      fun x => x.postHeader) = some [0, 0, 0, 9] := by
  obtain ⟨p, hp⟩ : ∃ x, (lcb_remove instW { key := [107], dur_level := 1, dur_timeout := 5 }).pkt = some x :=
    ⟨((lcb_remove instW { key := [107], dur_level := 1, dur_timeout := 5 }).pkt).getD { opaque_ := 0 }, by decide⟩
  obtain ⟨q, hq⟩ : ∃ x, (lcb_touch instW { key := [107], exptime := 9, dur_level := 2, dur_timeout := 7 }).pkt = some x :=
    ⟨((lcb_touch instW { key := [107], exptime := 9, dur_level := 2, dur_timeout := 7 }).pkt).getD { opaque_ := 0 }, by decide⟩
  obtain ⟨q0, hq0⟩ : ∃ x, (lcb_touch instW { key := [107], exptime := 9 }).pkt = some x :=
    ⟨((lcb_touch instW { key := [107], exptime := 9 }).pkt).getD { opaque_ := 0 }, by decide⟩
  have h := durability_frame_encoding instW
    { key := [107], dur_level := 1, dur_timeout := 5 }
    { key := [107], exptime := 9, dur_level := 2, dur_timeout := 7 } p q
    (by decide) (by decide) hp hq
  rw [hp, hq, hq0]
  refine ⟨?_, ?_, ?_⟩
  · rw [Option.map_some', h.2.1]; decide
  · rw [Option.map_some', h.2.2.1]; decide
  · rw [Option.map_some', h.2.2.2 { key := [107], exptime := 9 } q0 rfl hq0]; decide

/-- C3: a collection-id lookup packet's key is the scope name, a dot,
then the collection name; the packet carries the no-collection-id flag;
and the header's 16-bit key-length and 32-bit total-body-length fields
(bytes 2-3 and 8-11 of the serialised header, on either endianness)
hold the path's byte length big-endian (collections.cc lines
185-202). -/
theorem getcid_key_is_scoped_path (inst : lcb_INSTANCE) (s c : List Nat)
    (p : mc_PACKET) (lEnd : Bool)
    (hp : (lcb_getcid inst { scope := some s, collection := some c }).pkt = some p) :
    p.key = s ++ [0x2e] ++ c ∧
    p.nocid = true ∧
    ((hdrBytes lEnd p.hdr).drop 2).take 2 = be16 (s ++ [0x2e] ++ c).length ∧
    ((hdrBytes lEnd p.hdr).drop 8).take 4 = be32 (s ++ [0x2e] ++ c).length := by
  obtain ⟨-, -, hkey, hnocid, -, -, hklen, hblen⟩ :=
    lcb_getcid_pkt_inv inst { scope := some s, collection := some c } p hp
  simp only [nameBytes] at hkey
  refine ⟨hkey, hnocid, ?_, ?_⟩
  · rw [hdrBytes_keylen, hklen, hkey, be16_mod]
  · rw [hdrBytes_bodylen, hblen, hkey, be32_mod]

/-- Witness for C3: scope "s", collection "c" on a fresh one-pipeline
instance; the path is "s.c" (bytes 115, 46, 99), length 3, on both
endiannesses. -/
theorem getcid_key_is_scoped_path_witness :
    ((lcb_getcid instW { scope := some [115], collection := some [99] }).pkt.map
      fun x => (x.key, x.nocid)) = some ([115, 46, 99], true) ∧
    ((lcb_getcid instW { scope := some [115], collection := some [99] }).pkt.map
      fun x => (((hdrBytes true x.hdr).drop 2).take 2, ((hdrBytes false x.hdr).drop 8).take 4)) =
      some ([0, 3], [0, 0, 0, 3]) := by
  obtain ⟨p, hp⟩ : ∃ x, (lcb_getcid instW { scope := some [115], collection := some [99] }).pkt = some x :=
    ⟨((lcb_getcid instW { scope := some [115], collection := some [99] }).pkt).getD { opaque_ := 0 }, by decide⟩
  have h1 := getcid_key_is_scoped_path instW [115] [99] p true hp
  have h2 := getcid_key_is_scoped_path instW [115] [99] p false hp
  rw [hp]
  constructor
  · rw [Option.map_some', h1.1, h1.2.1]; decide
  · rw [Option.map_some', h1.2.2.1, h2.2.2.2]; decide

/-- C8: for every packet built and scheduled by `lcb_remove`,
`lcb_touch` or `lcb_getcid`, the opaque field written into the wire
header equals the correlation id allocation assigned to the packet
(`hdr->request.opaque = pkt->opaque` at remove.cc:170, touch.cc:171,
collections.cc:199), which is the id drawn from the owning pipeline's
counter. -/
theorem wire_opaque_is_packet_opaque (inst : lcb_INSTANCE)
    (rcmd : lcb_CMDREMOVE) (tcmd : lcb_CMDTOUCH) (ccmd : lcb_CMDGETCID)
    (p q r : mc_PACKET)
    (hp : (lcb_remove inst rcmd).pkt = some p)
    (hq : (lcb_touch inst tcmd).pkt = some q)
    (hr : (lcb_getcid inst ccmd).pkt = some r) :
    (p.hdr.opaque_ = p.opaque_ ∧
      p.opaque_ = (inst.pipelines.getD inst.routeIx {}).ctr) ∧
    (q.hdr.opaque_ = q.opaque_ ∧
      q.opaque_ = (inst.pipelines.getD inst.routeIx {}).ctr) ∧
    (r.hdr.opaque_ = r.opaque_ ∧
      r.opaque_ = (inst.pipelines.getD 0 {}).ctr) := by
  obtain ⟨-, -, hpo, hph, -, -, -⟩ := lcb_remove_pkt_inv inst rcmd p hp
  obtain ⟨-, -, hqo, hqh, -, -, -⟩ := lcb_touch_pkt_inv inst tcmd q hq
  obtain ⟨-, -, -, -, hro, hrh, -, -⟩ := lcb_getcid_pkt_inv inst ccmd r hr
  exact ⟨⟨hph, hpo⟩, ⟨hqh, hqo⟩, ⟨hrh, hro⟩⟩

/-- Witness for C8: concrete remove, touch and getcid submissions on a
fresh one-pipeline instance (counter 0). -/
theorem wire_opaque_is_packet_opaque_witness :
    ((lcb_remove instW { key := [107] }).pkt.map fun x => (x.hdr.opaque_, x.opaque_)) =
      some (0, 0) ∧
    ((lcb_touch instW { key := [107] }).pkt.map fun x => (x.hdr.opaque_, x.opaque_)) =
      some (0, 0) ∧
    ((lcb_getcid instW { scope := some [115], collection := some [99] }).pkt.map
      fun x => (x.hdr.opaque_, x.opaque_)) = some (0, 0) := by
  obtain ⟨p, hp⟩ : ∃ x, (lcb_remove instW { key := [107] }).pkt = some x :=
    ⟨((lcb_remove instW { key := [107] }).pkt).getD { opaque_ := 0 }, by decide⟩
  obtain ⟨q, hq⟩ : ∃ x, (lcb_touch instW { key := [107] }).pkt = some x :=
    ⟨((lcb_touch instW { key := [107] }).pkt).getD { opaque_ := 0 }, by decide⟩
  obtain ⟨r, hr⟩ : ∃ x, (lcb_getcid instW { scope := some [115], collection := some [99] }).pkt = some x :=
    ⟨((lcb_getcid instW { scope := some [115], collection := some [99] }).pkt).getD { opaque_ := 0 }, by decide⟩
  have h := wire_opaque_is_packet_opaque instW { key := [107] } { key := [107] }
    { scope := some [115], collection := some [99] } p q r hp hq hr
  rw [hp, hq, hr]
  refine ⟨?_, ?_, ?_⟩
  · rw [Option.map_some', h.1.1, h.1.2]; decide
  · rw [Option.map_some', h.2.1.1, h.2.1.2]; decide
  · rw [Option.map_some', h.2.2.1, h.2.2.2]; decide

/-- Every non-success outcome of `lcb_remove` leaves the instance
unchanged and schedules no packet. -/
theorem lcb_remove_frame (inst : lcb_INSTANCE) (cmd : lcb_CMDREMOVE) :
    (lcb_remove inst cmd).rc = .LCB_SUCCESS ∨
      ((lcb_remove inst cmd).inst = inst ∧ (lcb_remove inst cmd).pkt = none) := by
  simp only [lcb_remove]
  split
  · exact Or.inr ⟨rfl, rfl⟩
  · split
    · exact Or.inr ⟨rfl, rfl⟩
    · split
      · exact Or.inr ⟨rfl, rfl⟩
      · exact Or.inl rfl

/-- Every non-success outcome of `lcb_touch` leaves the instance
unchanged and schedules no packet. -/
theorem lcb_touch_frame (inst : lcb_INSTANCE) (cmd : lcb_CMDTOUCH) :
    (lcb_touch inst cmd).rc = .LCB_SUCCESS ∨
      ((lcb_touch inst cmd).inst = inst ∧ (lcb_touch inst cmd).pkt = none) := by
  simp only [lcb_touch]
  split
  · exact Or.inr ⟨rfl, rfl⟩
  · split
    · exact Or.inr ⟨rfl, rfl⟩
    · split
      · exact Or.inr ⟨rfl, rfl⟩
      · exact Or.inl rfl

/-- Every non-success outcome of `lcb_getcid` leaves the instance
unchanged and schedules no packet. -/
theorem lcb_getcid_frame (inst : lcb_INSTANCE) (cmd : lcb_CMDGETCID) :
    (lcb_getcid inst cmd).rc = .LCB_SUCCESS ∨
      ((lcb_getcid inst cmd).inst = inst ∧ (lcb_getcid inst cmd).pkt = none) := by
  simp only [lcb_getcid]
  split
  · exact Or.inr ⟨rfl, rfl⟩
  · split
    · exact Or.inr ⟨rfl, rfl⟩
    · split
      · exact Or.inr ⟨rfl, rfl⟩
      · split
        · exact Or.inr ⟨rfl, rfl⟩
        · split
          · exact Or.inr ⟨rfl, rfl⟩
          · exact Or.inl rfl

/-- Every non-success outcome of `lcb_getmanifest` leaves the instance
unchanged and schedules no packet. -/
theorem lcb_getmanifest_frame (inst : lcb_INSTANCE) :
    (lcb_getmanifest inst).rc = .LCB_SUCCESS ∨
      ((lcb_getmanifest inst).inst = inst ∧ (lcb_getmanifest inst).pkt = none) := by
  simp only [lcb_getmanifest]
  split
  · exact Or.inr ⟨rfl, rfl⟩
  · split
    · exact Or.inr ⟨rfl, rfl⟩
    · split
      · exact Or.inr ⟨rfl, rfl⟩
      · split
        · exact Or.inr ⟨rfl, rfl⟩
        · exact Or.inl rfl

/-- C7: every scheduling-time error is synchronous and atomic: whenever
any of the four entry points returns a non-success status, the instance
(all pipelines and queue state) is exactly as before the call and no
packet was handed to any pipeline, so, with nothing scheduled, no
completion can ever fire for the call; remove and touch moreover return
LCB_NOT_SUPPORTED when a durability level is requested but the cluster
lacks synchronous replication (remove.cc / touch.cc lines 151-158). -/
theorem scheduling_errors_synchronous_atomic (inst : lcb_INSTANCE)
    (rcmd : lcb_CMDREMOVE) (tcmd : lcb_CMDTOUCH) (ccmd : lcb_CMDGETCID) :
    ((lcb_remove inst rcmd).rc ≠ .LCB_SUCCESS →
      (lcb_remove inst rcmd).inst = inst ∧ (lcb_remove inst rcmd).pkt = none) ∧
    ((lcb_touch inst tcmd).rc ≠ .LCB_SUCCESS →
      (lcb_touch inst tcmd).inst = inst ∧ (lcb_touch inst tcmd).pkt = none) ∧
    ((lcb_getcid inst ccmd).rc ≠ .LCB_SUCCESS →
      (lcb_getcid inst ccmd).inst = inst ∧ (lcb_getcid inst ccmd).pkt = none) ∧
    ((lcb_getmanifest inst).rc ≠ .LCB_SUCCESS →
      (lcb_getmanifest inst).inst = inst ∧ (lcb_getmanifest inst).pkt = none) ∧
    (rcmd.key ≠ [] → rcmd.dur_level ≠ 0 → inst.syncreplication = false →
      (lcb_remove inst rcmd).rc = .LCB_NOT_SUPPORTED) ∧
    (tcmd.key ≠ [] → tcmd.dur_level ≠ 0 → inst.syncreplication = false →
      (lcb_touch inst tcmd).rc = .LCB_NOT_SUPPORTED) := by
  refine ⟨?_, ?_, ?_, ?_, ?_, ?_⟩
  · intro h
    rcases lcb_remove_frame inst rcmd with hs | hf
    · exact absurd hs h
    · exact hf
  · intro h
    rcases lcb_touch_frame inst tcmd with hs | hf
    · exact absurd hs h
    · exact hf
  · intro h
    rcases lcb_getcid_frame inst ccmd with hs | hf
    · exact absurd hs h
    · exact hf
  · intro h
    rcases lcb_getmanifest_frame inst with hs | hf
    · exact absurd hs h
    · exact hf
  · intro hk hd hs
    simp [lcb_remove, hk, hd, hs]
  · intro hk hd hs
    simp [lcb_touch, hk, hd, hs]

/-- Witness for C7: a durable remove on a cluster without synchronous
replication is refused with NotSupported and changes nothing; a
manifest fetch with collections disabled likewise changes nothing. -/
theorem scheduling_errors_synchronous_atomic_witness :
    (lcb_remove { instW with syncreplication := false } { key := [107], dur_level := 1 }).rc =
      .LCB_NOT_SUPPORTED ∧
    (lcb_remove { instW with syncreplication := false } { key := [107], dur_level := 1 }).inst =
      { instW with syncreplication := false } ∧
    (lcb_remove { instW with syncreplication := false } { key := [107], dur_level := 1 }).pkt = none ∧
    (lcb_getmanifest { instW with use_collections := false }).inst =
      { instW with use_collections := false } ∧
    (lcb_getmanifest { instW with use_collections := false }).pkt = none := by
  have h1 := scheduling_errors_synchronous_atomic { instW with syncreplication := false }
    { key := [107], dur_level := 1 } {} {}
  have h2 := scheduling_errors_synchronous_atomic { instW with use_collections := false }
    {} {} {}
  exact ⟨h1.2.2.2.2.1 (by decide) (by decide) rfl,
    (h1.1 (by decide)).1, (h1.1 (by decide)).2,
    (h2.2.2.2.1 (by decide)).1, (h2.2.2.2.1 (by decide)).2⟩
